import Mathlib

/-!
# LDS Church GIS map: data normalisation, endpoint fallback and map presenter

A shallow embedding of the pure core of `src/utils.js`, `src/api.js` and `src/map.js`.

Conventions of the embedding

* A JavaScript number that is finite is represented by its exact value, a rational number
  (every finite IEEE double is a rational).  JSON never carries `NaN` or an infinity, so the
  coordinates that reach `processOverpassData` are finite.
* `undefined` (or any value that is not a number where a number is expected) is `none`.
* Strings are Lean strings.  A tag mapping is an association list; a key is looked up with
  `List.lookup`.
* A thrown exception is the `Except.error` branch of the result.
-/

namespace LDSMap

/-! ## JavaScript runtime pieces used by the sources -/

/-- Values thrown by the code or by the runtime. -/
inductive JSError where
  /-- A `TypeError` raised by the runtime, e.g. reading `toFixed` of `undefined`. -/
  | typeError : JSError
  /-- The value built by `new Error(message)`. -/
  | error (message : String) : JSError
  /-- The reason with which `fetch` or `response.json()` rejected. -/
  | rejected (reason : String) : JSError
  deriving DecidableEq, Repr

/-- The function `String.prototype.toLowerCase`.  The embedding lowers the ASCII letters;
the full Unicode mapping of JavaScript differs on characters outside ASCII only, and never
produces one of the letters of `temple` from such a character, so that the two tests made
on a lowered string in `getBuildingType` are not affected. -/
def toLowerCase (s : String) : String :=
  String.mk (s.data.map Char.toLower)

/-- Whether the list of characters `t` begins with `p`. -/
def startsWith : List Char → List Char → Bool
  | [], _ => true
  | _ :: _, [] => false
  | c :: p, d :: t => c == d && startsWith p t

/-- Whether `sub` occurs in `t` as a contiguous block. -/
def occursIn (sub : List Char) : List Char → Bool
  | [] => startsWith sub []
  | c :: t => startsWith sub (c :: t) || occursIn sub t

/-- The function `String.prototype.includes`. -/
def includes (s sub : String) : Bool :=
  occursIn sub.data s.data

/-- Left padding with the character `0` up to the length `len`. -/
def padLeftZeros (m : String) (len : Nat) : String :=
  String.mk (List.replicate (len - m.length) '0') ++ m

/-- The digits written by `toFixed` for the integer `n` and `f` fraction digits: the decimal
numeral of `n`, padded with zeros to at least `f + 1` digits, with a point before the last
`f` digits when `f` is not zero. -/
def fixedDigits (n f : Nat) : String :=
  let m := Nat.repr n
  if f = 0 then m
  else
    let m := padLeftZeros m (f + 1)
    let k := m.length
    String.mk (m.data.take (k - f)) ++ "." ++ String.mk (m.data.drop (k - f))

/-- The function `Number.prototype.toFixed` (ECMA-262, 21.1.3.3) on a finite number `x` with
`f` fraction digits.  With `a = |x|`: when `a < 10^21` the integer `n` for which `n / 10^f - a`
is as close to zero as possible (the larger one on a tie) is written with `fixedDigits`; a
minus sign is put in front when `x < 0`.  When `a ≥ 10^21` the standard defers to
`Number::toString`, which depends on the binary representation and is taken as the parameter
`numberToString`. -/
def toFixed (numberToString : ℚ → String) (x : ℚ) (f : Nat) : String :=
  let s := if x < 0 then "-" else ""
  let a := |x|
  if (10 : ℚ) ^ 21 ≤ a then s ++ numberToString a
  else s ++ fixedDigits ⌊a * 10 ^ f + 1 / 2⌋₊ f

/-! ## Tags -/

/-- A tag mapping of an element: free-form keys to string values. -/
abbrev Tags := List (String × String)

/-- Property access `tags[key]`; `none` is `undefined`. -/
def Tags.get (tags : Tags) (key : String) : Option String :=
  tags.lookup key

/-- Truthiness of a tag value: `undefined` and the empty string are falsy. -/
def truthy : Option String → Bool
  | some s => s != ""
  | none => false

/-- The expression `v || d` for a tag value `v` and a string `d`. -/
def orElse (v : Option String) (d : String) : String :=
  match v with
  | some s => if s != "" then s else d
  | none => d

/-! ## `src/utils.js` -/

/-- Determine the type of church building (`src/utils.js`, lines 5-22). -/
def getBuildingType (tags : Tags) : String :=
  let name := toLowerCase (orElse (tags.get "name") "")
  let denomination := toLowerCase (orElse (tags.get "denomination") "")
  let building := toLowerCase (orElse (tags.get "building") "")
  if includes name "temple" ||
      includes denomination "temple" ||
      building == "temple" ||
      (tags.get "amenity" == some "place_of_worship" && includes name "temple") then
    "temple"
  else
    "meetinghouse"

/-- Format an address from OSM tags (`src/utils.js`, lines 25-47). -/
def formatAddress (tags : Tags) : String :=
  let parts : List String := []
  let parts :=
    if truthy (tags.get "addr:housenumber") && truthy (tags.get "addr:street") then
      parts ++ [(tags.get "addr:housenumber").getD "" ++ " " ++ (tags.get "addr:street").getD ""]
    else if truthy (tags.get "addr:street") then
      parts ++ [(tags.get "addr:street").getD ""]
    else parts
  let parts :=
    if truthy (tags.get "addr:city") then parts ++ [(tags.get "addr:city").getD ""] else parts
  let parts :=
    if truthy (tags.get "addr:state") then parts ++ [(tags.get "addr:state").getD ""] else parts
  let parts :=
    if truthy (tags.get "addr:postcode") then parts ++ [(tags.get "addr:postcode").getD ""]
    else parts
  if parts.length > 0 then String.intercalate ", " parts else "Address not available"

/-- The text written by `updateStats` (`src/utils.js`, line 117). -/
def statsMessage (total visible temples meetinghouses : Nat) : String :=
  "Showing " ++ Nat.repr visible ++ " of " ++ Nat.repr total ++ " buildings (" ++
    Nat.repr temples ++ " temples, " ++ Nat.repr meetinghouses ++ " meetinghouses)"

/-- Update the statistics display (`src/utils.js`, lines 114-119).  The argument `statsText`
is the text content of the element with id `stats-text`, `none` when the document has no such
element, in which case nothing is written. -/
def updateStats (statsText : Option String) (total visible temples meetinghouses : Nat) :
    Option String :=
  match statsText with
  | some _ => some (statsMessage total visible temples meetinghouses)
  | none => none

/-! ## `src/api.js`: normalisation -/

/-- The `center` object of a way or relation. -/
structure Center where
  lat : Option ℚ
  lon : Option ℚ
  deriving DecidableEq, Repr

/-- A raw element of an Overpass response. -/
structure RawElement where
  type : String
  id : Option Nat
  lat : Option ℚ
  lon : Option ℚ
  center : Option Center
  tags : Option Tags
  deriving DecidableEq, Repr

/-- A building object as built by `processOverpassData`. -/
structure Building where
  id : Option Nat
  lat : ℚ
  lon : ℚ
  name : String
  type : String
  address : String
  denomination : String
  religion : String
  tags : Tags
  deriving DecidableEq, Repr

/-- Coordinate extraction (`src/api.js`, lines 106-117): the values bound to `lat` and `lon`,
or `none` when the callback returns early because the element is not a node and has no
`center`. -/
def extractCoordinates (element : RawElement) : Option (Option ℚ × Option ℚ) :=
  if element.type = "node" then
    some (element.lat, element.lon)
  else
    match element.center with
    | some c => some (c.lat, c.lon)
    | none => none

/-- The deduplication key (`src/api.js`, line 120). -/
def locationKey (numberToString : ℚ → String) (lat lon : ℚ) : String :=
  toFixed numberToString lat 5 ++ "," ++ toFixed numberToString lon 5

/-- The object literal of `src/api.js`, lines 127-140. -/
def makeBuilding (element : RawElement) (lat lon : ℚ) : Building :=
  let tags : Tags := element.tags.getD []
  { id := element.id
    lat := lat
    lon := lon
    name := orElse (tags.get "name") (orElse (tags.get "name:en") "LDS Building")
    type := getBuildingType tags
    address := formatAddress tags
    denomination := orElse (tags.get "denomination") "mormon"
    religion := orElse (tags.get "religion") "christian"
    tags := tags }

/-- The state threaded through `elements.forEach`: the array `buildings` and the set
`seenLocations` (in insertion order). -/
abbrev PassState := List Building × List String

/-- The callback of `elements.forEach` (`src/api.js`, lines 105-143).  Calling `toFixed` on
a value that is not a number throws a `TypeError`. -/
def processElement (numberToString : ℚ → String) (state : PassState) (element : RawElement) :
    Except JSError PassState :=
  match extractCoordinates element with
  | none => .ok state
  | some (none, _) => .error .typeError
  | some (some _, none) => .error .typeError
  | some (some lat, some lon) =>
    let key := locationKey numberToString lat lon
    if state.2.contains key then .ok state
    else .ok (state.1 ++ [makeBuilding element lat lon], state.2 ++ [key])

/-- The loop of `elements.forEach`, from a given state. -/
def processFrom (numberToString : ℚ → String) :
    List RawElement → PassState → Except JSError PassState
  | [], state => .ok state
  | element :: rest, state =>
    match processElement numberToString state element with
    | .ok state1 => processFrom numberToString rest state1
    | .error err => .error err

/-- Process raw Overpass elements into building objects (`src/api.js`, lines 101-146). -/
def processOverpassData (numberToString : ℚ → String) (elements : List RawElement) :
    Except JSError (List Building) :=
  match processFrom numberToString elements ([], []) with
  | .ok state => .ok state.1
  | .error err => .error err

/-- Spec-side reading of "has a coordinate": the numeric pair an element contributes, if any. -/
def coordinateOf (element : RawElement) : Option (ℚ × ℚ) :=
  match extractCoordinates element with
  | some (some lat, some lon) => some (lat, lon)
  | _ => none

/-- Spec-side: the rounded coordinate key of an element that has a coordinate. -/
def keyOf (numberToString : ℚ → String) (element : RawElement) : Option String :=
  (coordinateOf element).map (fun c => locationKey numberToString c.1 c.2)

/-- Spec-side: whether an element is kept, given the elements that precede it in the input:
it has a coordinate and its key occurs at none of the preceding elements. -/
def keptAfter (numberToString : ℚ → String) (earlier : List RawElement)
    (element : RawElement) : Option (RawElement × ℚ × ℚ) :=
  match coordinateOf element with
  | none => none
  | some (lat, lon) =>
    if earlier.any (fun e => keyOf numberToString e == some (locationKey numberToString lat lon))
    then none
    else some (element, lat, lon)

/-- Spec-side: the subsequence of the input made of the first occurrence of every key, each
element paired with its coordinate.  `elements.inits` lists the prefixes of the input, so that
every element is paired with the elements before it. -/
def firstOccurrences (numberToString : ℚ → String) (elements : List RawElement) :
    List (RawElement × ℚ × ℚ) :=
  (elements.zip elements.inits).filterMap
    (fun p => keptAfter numberToString p.2 p.1)

/-- Every element that selects a coordinate source has a number in both components. -/
def CoordinatesPresent (element : RawElement) : Prop :=
  match extractCoordinates element with
  | some (lat, lon) => lat.isSome = true ∧ lon.isSome = true
  | none => True

/-! ## `src/api.js`: endpoint fallback -/

/-- What one endpoint answers when it is queried: either `fetch` rejects (a transport
failure), or a response arrives with a status and a body.  The body is what
`(await response.json()).elements` evaluates to: the element list, or the error thrown while
parsing the body or reading the list. -/
inductive Outcome where
  | rejected (err : JSError) : Outcome
  | response (status : Nat) (body : Except JSError (List RawElement)) : Outcome

/-- The property `response.ok`: the status is in the range 200-299. -/
def responseOk (status : Nat) : Bool :=
  200 ≤ status && status ≤ 299

/-- The outcome of a run of `fetchLDSBuildings`: the value returned or thrown, and the
endpoints that were queried, in the order of the queries. -/
structure FetchRun where
  result : Except JSError (List Building)
  queried : List String

/-- Record a query made before the rest of a run. -/
def FetchRun.after (endpoint : String) (run : FetchRun) : FetchRun :=
  { run with queried := endpoint :: run.queried }

/-- The loop over the endpoints and the statements after it (`src/api.js`, lines 53-93), from
a given value of `lastError`.  Each endpoint comes with what it answers when queried.  The
pause after a 429 answer has no effect on the values computed. -/
def fetchLoop (numberToString : ℚ → String) :
    List (String × Outcome) → Option JSError → FetchRun
  | [], lastError =>
    match lastError with
    | some err => { result := .error err, queried := [] }
    | none => { result := .error (.error "Overpass request failed"), queried := [] }
  | (endpoint, outcome) :: rest, _ =>
    match outcome with
    | .rejected err => (fetchLoop numberToString rest (some err)).after endpoint
    | .response status body =>
      if status = 429 then
        (fetchLoop numberToString rest (some (.error "Rate limited (429)"))).after endpoint
      else if !responseOk status then
        (fetchLoop numberToString rest
          (some (.error ("HTTP error! status: " ++ Nat.repr status)))).after endpoint
      else
        match body with
        | .error err => (fetchLoop numberToString rest (some err)).after endpoint
        | .ok elements =>
          match processOverpassData numberToString elements with
          | .ok buildings => { result := .ok buildings, queried := [endpoint] }
          | .error err => (fetchLoop numberToString rest (some err)).after endpoint

/-- Fetch LDS building data (`src/api.js`, lines 42-98); the outer handler logs and throws
the same error again. -/
def fetchLDSBuildings (numberToString : ℚ → String) (endpoints : List (String × Outcome)) :
    FetchRun :=
  fetchLoop numberToString endpoints none

/-- The error that an endpoint leaves in `lastError`, if it does; `none` when the endpoint
yields a building list. -/
def failureOf (numberToString : ℚ → String) : Outcome → Option JSError
  | .rejected err => some err
  | .response status body =>
    if status = 429 then some (.error "Rate limited (429)")
    else if !responseOk status then some (.error ("HTTP error! status: " ++ Nat.repr status))
    else
      match body with
      | .error err => some err
      | .ok elements =>
        match processOverpassData numberToString elements with
        | .ok _ => none
        | .error err => some err

/-- An endpoint succeeds with `buildings`: it answers with a success status other than 429 and
a body whose element list is normalised to `buildings`. -/
def SucceedsWith (numberToString : ℚ → String) (outcome : Outcome)
    (buildings : List Building) : Prop :=
  ∃ status elements, outcome = .response status (.ok elements) ∧ status ≠ 429 ∧
    responseOk status = true ∧ processOverpassData numberToString elements = .ok buildings

/-! ## `src/map.js` -/

/-- The fields of the marker symbol that depend on the building type. -/
structure MarkerSymbol where
  style : String
  color : Nat × Nat × Nat
  size : Nat
  deriving DecidableEq, Repr

/-- A marker of the graphics layer; `attributes` is the building it was made from. -/
structure Graphic where
  longitude : ℚ
  latitude : ℚ
  symbol : MarkerSymbol
  attributes : Building
  title : String
  deriving DecidableEq, Repr

/-- The module-level variables of `src/map.js` that `filterBuildings` reads or writes, and
the text of the statistics element of the document (`none` when it is absent). -/
structure PresenterState where
  allBuildings : List Building
  currentFilter : String
  graphics : List Graphic
  statsText : Option String
  deriving DecidableEq, Repr

/-- Create a marker symbol for a building (`src/map.js`, lines 89-103). -/
def createMarkerSymbol (type : String) : MarkerSymbol :=
  let isTemple := type == "temple"
  { style := if isTemple then "diamond" else "circle"
    color := if isTemple then (255, 215, 0) else (65, 105, 225)
    size := if isTemple then 16 else 12 }

/-- Add a building marker to the graphics layer (`src/map.js`, lines 106-136). -/
def addBuildingMarker (layer : List Graphic) (building : Building) : List Graphic :=
  layer ++ [{ longitude := building.lon
              latitude := building.lat
              symbol := createMarkerSymbol building.type
              attributes := building
              title := building.name }]

/-- Filter buildings by type (`src/map.js`, lines 207-240). -/
def filterBuildings (s : PresenterState) (filterType : String) : PresenterState :=
  let graphics : List Graphic := []
  let filteredBuildings :=
    if filterType = "temple" then s.allBuildings.filter (fun b => b.type == "temple")
    else if filterType = "meetinghouse" then
      s.allBuildings.filter (fun b => b.type == "meetinghouse")
    else s.allBuildings
  let graphics := filteredBuildings.foldl addBuildingMarker graphics
  let templeCount := (s.allBuildings.filter (fun b => b.type == "temple")).length
  let meetinghouseCount := (s.allBuildings.filter (fun b => b.type == "meetinghouse")).length
  { allBuildings := s.allBuildings
    currentFilter := filterType
    graphics := graphics
    statsText := updateStats s.statsText s.allBuildings.length filteredBuildings.length
      templeCount meetinghouseCount }

/-- The double nearest to the literal `0.1`. -/
def tenth : ℚ := 3602879701896397 / 36028797018963968

/-- The zoom level chosen from the spread (`src/map.js`, lines 191-197); the literal `0.5` is
a double exactly. -/
def zoomLevel (maxSpread : ℚ) : Nat :=
  if maxSpread > 10 then 4
  else if maxSpread > 5 then 5
  else if maxSpread > 2 then 6
  else if maxSpread > 1 then 7
  else if maxSpread > 1 / 2 then 8
  else if maxSpread > tenth then 10
  else 10

/-- The arithmetic of doubles used by `zoomToBuildings`: each operation gives the double
nearest to the exact result.  The rounding is not modelled; the operations are parameters. -/
structure FloatArith where
  add : ℚ → ℚ → ℚ
  sub : ℚ → ℚ → ℚ
  div : ℚ → ℚ → ℚ

/-- The function `Math.min` applied to a non-empty argument list. -/
def mathMin (x : ℚ) (xs : List ℚ) : ℚ := xs.foldl min x

/-- The function `Math.max` applied to a non-empty argument list. -/
def mathMax (x : ℚ) (xs : List ℚ) : ℚ := xs.foldl max x

/-- The value of `maxSpread` (`src/map.js`, lines 175-189) for the list `first :: others`. -/
def maxSpread (fa : FloatArith) (first : Building) (others : List Building) : ℚ :=
  let lats := others.map (fun b => b.lat)
  let lons := others.map (fun b => b.lon)
  let minLat := mathMin first.lat lats
  let maxLat := mathMax first.lat lats
  let minLon := mathMin first.lon lons
  let maxLon := mathMax first.lon lons
  let latSpread := fa.sub maxLat minLat
  let lonSpread := fa.sub maxLon minLon
  max latSpread lonSpread

/-- The argument of `view.goTo`. -/
structure ViewTarget where
  center : ℚ × ℚ
  zoom : Nat
  deriving DecidableEq, Repr

/-- Zoom map to fit all buildings (`src/map.js`, lines 171-204): the target handed to
`view.goTo`, or `none` when the function returns at once on an empty list. -/
def zoomToBuildings (fa : FloatArith) : List Building → Option ViewTarget
  | [] => none
  | first :: others =>
    let lats := others.map (fun b => b.lat)
    let lons := others.map (fun b => b.lon)
    let minLat := mathMin first.lat lats
    let maxLat := mathMax first.lat lats
    let minLon := mathMin first.lon lons
    let maxLon := mathMax first.lon lons
    let centerLat := fa.div (fa.add minLat maxLat) 2
    let centerLon := fa.div (fa.add minLon maxLon) 2
    some { center := (centerLon, centerLat), zoom := zoomLevel (maxSpread fa first others) }

/-- Exact arithmetic, which agrees with the arithmetic of doubles wherever the exact result
is itself a double. -/
def exactArith : FloatArith :=
  { add := fun a b => a + b, sub := fun a b => a - b, div := fun a b => a / b }

/-- The invariant of the pass: every building already pushed has its key in `seenLocations`,
and the buildings pushed so far have pairwise different keys. -/
def PassInvariant (numberToString : ℚ → String) (state : PassState) : Prop :=
  (∀ b ∈ state.1, locationKey numberToString b.lat b.lon ∈ state.2) ∧
  state.1.Pairwise (fun a b =>
    locationKey numberToString a.lat a.lon ≠ locationKey numberToString b.lat b.lon)

/-- The keys in `seenLocations` are exactly the keys of the elements already visited. -/
def SeenMatches (numberToString : ℚ → String) (visited : List RawElement)
    (seen : List String) : Prop :=
  ∀ k, k ∈ seen ↔ ∃ e ∈ visited, keyOf numberToString e = some k

/-- The building made from an element paired with its coordinate. -/
def buildingOf (p : RawElement × ℚ × ℚ) : Building :=
  makeBuilding p.1 p.2.1 p.2.2

/-- The elements of `rest` that are kept when `visited` precedes `rest` in the input. -/
def keptFrom (numberToString : ℚ → String) (visited rest : List RawElement) :
    List (RawElement × ℚ × ℚ) :=
  (rest.zip (rest.inits.map (fun t => visited ++ t))).filterMap
    (fun p => keptAfter numberToString p.2 p.1)

/-! ## The scenario of the specification -/

/-- The double nearest to the literal `39.10`. -/
def lat3910 : ℚ := 5502835794693325 / 140737488355328

/-- The double nearest to the literal `-94.58`. -/
def lonM9458 : ℚ := -6655475824323461 / 70368744177664

/-- The double nearest to the literal `39.10001`. -/
def lat3910001 : ℚ := 343927325129263 / 8796093022208

/-- The double nearest to the literal `-94.58001`. -/
def lonM9458001 : ℚ := -6655476528010903 / 70368744177664

/-- The node of the scenario. -/
def scenarioNode : RawElement :=
  { type := "node", id := none, lat := some lat3910, lon := some lonM9458, center := none
    tags := some [("name", "Kansas City Temple"), ("building", "temple")] }

/-- The way of the scenario. -/
def scenarioWay : RawElement :=
  { type := "way", id := none, lat := none, lon := none
    center := some { lat := some lat3910001, lon := some lonM9458001 }
    tags := some [("name", "Kansas City Temple")] }

/-- A stand-in for `Number::toString` where a closed term is needed; the results stated with
it are proved for every choice of that function first. -/
def noExponent : ℚ → String := fun _ => ""

/-- A way for which the service computed no `center`. -/
def wayWithoutCenter : RawElement :=
  { type := "way", id := some 7, lat := none, lon := none, center := none, tags := none }

/-- An input with an element without coordinate source and a repeated element. -/
def scenarioWithSkips : List RawElement :=
  [scenarioNode, wayWithoutCenter, scenarioNode, scenarioWay]

/-- A node that carries neither `lat` nor `lon`. -/
def nodeWithoutCoordinates : RawElement :=
  { type := "node", id := some 1, lat := none, lon := none, center := none, tags := none }

/-- A node whose only name is the English-localised one. -/
def englishNameOnly : RawElement :=
  { type := "node", id := some 2, lat := some lat3910, lon := some lonM9458, center := none
    tags := some [("name:en", "Provo Temple")] }

/-- A node whose building tag is written with a capital letter. -/
def capitalBuildingTag : RawElement :=
  { type := "node", id := some 3, lat := some lat3910, lon := some lonM9458, center := none
    tags := some [("building", "Temple")] }

/-- Spec-side: the temple condition in the words of the specification, on the display name of
the building, its denomination tag and its building-type tag. -/
def claimedTemple (b : Building) : Bool :=
  includes (toLowerCase b.name) "temple" ||
    includes (toLowerCase (orElse (b.tags.get "denomination") "")) "temple" ||
    b.tags.get "building" == some "temple"

/-- The temple condition of the code, on the tags kept in the building. -/
def templeByTags (tags : Tags) : Bool :=
  includes (toLowerCase (orElse (tags.get "name") "")) "temple" ||
    includes (toLowerCase (orElse (tags.get "denomination") "")) "temple" ||
    toLowerCase (orElse (tags.get "building") "") == "temple"

/-- Overpass API endpoints, in fallback order (`src/api.js`, lines 5-9). -/
def OVERPASS_ENDPOINTS : List String :=
  ["https://overpass-api.de/api/interpreter",
   "https://overpass.kumi.systems/api/interpreter",
   "https://lz4.overpass-api.de/api/interpreter"]

/-- A run in which the first mirror is rate limited and the second one answers. -/
def secondMirrorAnswers : List (String × Outcome) :=
  [("https://overpass-api.de/api/interpreter", .response 429 (.ok [])),
   ("https://overpass.kumi.systems/api/interpreter",
     .response 200 (.ok [scenarioNode, scenarioWay])),
   ("https://lz4.overpass-api.de/api/interpreter", .response 200 (.ok []))]

/-- A run in which no mirror answers with a building list. -/
def allMirrorsFail : List (String × Outcome) :=
  [("https://overpass-api.de/api/interpreter", .response 429 (.ok [])),
   ("https://overpass.kumi.systems/api/interpreter", .rejected (.rejected "Failed to fetch")),
   ("https://lz4.overpass-api.de/api/interpreter", .response 504 (.ok []))]

/-- A building with chosen id, type and coordinates and the default fields. -/
def sampleBuilding (id : Nat) (type : String) (lat lon : ℚ) : Building :=
  { id := some id, lat := lat, lon := lon, name := "LDS Building", type := type
    address := "Address not available", denomination := "mormon", religion := "christian"
    tags := [] }

/-- A presenter state with 3 temples and 5 meetinghouses and a statistics element. -/
def threeTemplesFiveMeetinghouses : PresenterState :=
  { allBuildings :=
      [sampleBuilding 1 "meetinghouse" 1 0, sampleBuilding 2 "temple" 2 0,
       sampleBuilding 3 "meetinghouse" 3 0, sampleBuilding 4 "meetinghouse" 4 0,
       sampleBuilding 5 "temple" 5 0, sampleBuilding 6 "meetinghouse" 6 0,
       sampleBuilding 7 "temple" 7 0, sampleBuilding 8 "meetinghouse" 8 0]
    currentFilter := "all"
    graphics := []
    statsText := some "" }

/-! ## Spec-side reading of the address format -/

/-- Spec-side: the value of a tag that is present, that is, defined and not empty. -/
def presentValue (v : Option String) : Option String :=
  match v with
  | some s => if s != "" then some s else none
  | none => none

/-- Spec-side: the street line, house number and street when both are present, the street
alone when the house number is absent, nothing when the street is absent. -/
def streetLine (tags : Tags) : Option String :=
  match presentValue (tags.get "addr:street") with
  | none => none
  | some street =>
    match presentValue (tags.get "addr:housenumber") with
    | some number => some (number ++ " " ++ street)
    | none => some street

/-- Spec-side: the present address parts in the order street line, city, state, postal
code. -/
def presentAddressParts (tags : Tags) : List String :=
  [streetLine tags, presentValue (tags.get "addr:city"), presentValue (tags.get "addr:state"),
    presentValue (tags.get "addr:postcode")].reduceOption

/-- Tags with a house number and nothing else. -/
def houseNumberOnly : Tags := [("addr:housenumber", "123")]

/-- Tags with a full address. -/
def fullAddress : Tags :=
  [("addr:housenumber", "7001"), ("addr:street", "Searcy Creek Parkway"),
    ("addr:city", "Kansas City"), ("addr:state", "MO"), ("addr:postcode", "64119")]

/-! ## Rounding as a number -/

/-- Spec-side: a number rounded to 5 decimal places, as a number: the multiple of `10^-5`
nearest to `x`, the one farther from zero on a tie.  Unlike the text written by `toFixed`, the
rounded number carries no sign when it is zero. -/
def roundTo5 (x : ℚ) : ℚ :=
  if x < 0 then -((⌊-x * 10 ^ 5 + 1 / 2⌋₊ : ℚ) / 10 ^ 5)
  else (⌊x * 10 ^ 5 + 1 / 2⌋₊ : ℚ) / 10 ^ 5

/-- The double nearest to the literal `0.000001`. -/
def tiny : ℚ := 4722366482869645 / 4722366482869645213696

/-- A node a tenth of a metre south of the equator, on the prime meridian. -/
def nodeSouth : RawElement :=
  { type := "node", id := some 11, lat := some (-tiny), lon := some 0, center := none
    tags := none }

/-- A node a tenth of a metre north of the equator, on the prime meridian. -/
def nodeNorth : RawElement :=
  { type := "node", id := some 12, lat := some tiny, lon := some 0, center := none
    tags := none }

end LDSMap

/-! # Theorems -/

namespace LDSMap

/-! ## Deduplication invariant -/

theorem makeBuilding_lat (e : RawElement) (lat lon : ℚ) : (makeBuilding e lat lon).lat = lat :=
  rfl

theorem makeBuilding_lon (e : RawElement) (lat lon : ℚ) : (makeBuilding e lat lon).lon = lon :=
  rfl

theorem makeBuilding_id (e : RawElement) (lat lon : ℚ) : (makeBuilding e lat lon).id = e.id :=
  rfl

theorem processElement_invariant (ts : ℚ → String) (state state1 : PassState)
    (e : RawElement) (h : processElement ts state e = .ok state1)
    (hinv : PassInvariant ts state) : PassInvariant ts state1 := by
  unfold processElement at h
  split at h
  · cases h; exact hinv
  · cases h
  · cases h
  · rename_i lat lon _
    simp only at h
    split at h
    · cases h; exact hinv
    · rename_i hnot
      cases h
      obtain ⟨hmem, hpw⟩ := hinv
      have hk : locationKey ts lat lon ∉ state.2 := by
        simpa using hnot
      refine ⟨?_, ?_⟩
      · intro b hb
        rcases List.mem_append.mp hb with hb | hb
        · exact List.mem_append_left _ (hmem b hb)
        · have : b = makeBuilding e lat lon := by simpa using hb
          subst this
          exact List.mem_append_right _ (by simp [makeBuilding_lat, makeBuilding_lon])
      · refine List.pairwise_append.mpr ⟨hpw, List.pairwise_singleton _ _, ?_⟩
        intro a ha b hb heq
        have : b = makeBuilding e lat lon := by simpa using hb
        subst this
        apply hk
        have := hmem a ha
        rw [heq] at this
        simpa [makeBuilding_lat, makeBuilding_lon] using this

theorem processFrom_invariant (ts : ℚ → String) (elements : List RawElement) :
    ∀ (state state1 : PassState), processFrom ts elements state = .ok state1 →
      PassInvariant ts state → PassInvariant ts state1 := by
  induction elements with
  | nil =>
    intro state state1 h hinv
    simp only [processFrom] at h
    cases h
    exact hinv
  | cons e rest ih =>
    intro state state1 h hinv
    simp only [processFrom] at h
    split at h
    · rename_i s1 hs1
      exact ih s1 state1 h (processElement_invariant ts state s1 e hs1 hinv)
    · cases h

/-- C1, amended: whenever `processOverpassData` returns a building list, no two buildings at
different positions of the list have the same pair of texts `toFixed(5)` of their latitude
and longitude.  The text keeps the sign of a number that rounds to zero, so `-0.00000` and
`0.00000` are different. -/
theorem processOverpassData_no_duplicate_rounded_pair (numberToString : ℚ → String)
    (elements : List RawElement) (buildings : List Building)
    (h : processOverpassData numberToString elements = .ok buildings) :
    buildings.Pairwise (fun a b =>
      (toFixed numberToString a.lat 5, toFixed numberToString a.lon 5) ≠
        (toFixed numberToString b.lat 5, toFixed numberToString b.lon 5)) := by
  unfold processOverpassData at h
  split at h
  · rename_i state hstate
    cases h
    have hinv := processFrom_invariant numberToString elements ([], []) state hstate
      ⟨by simp, List.Pairwise.nil⟩
    refine hinv.2.imp ?_
    intro a b hne heq
    apply hne
    have h1 := congrArg Prod.fst heq
    have h2 := congrArg Prod.snd heq
    simp only at h1 h2
    simp only [locationKey, h1, h2]
  · cases h

/-! ## Evaluation of `toFixed` -/

theorem toFixed_of_nonneg (ts : ℚ → String) (x : ℚ) (f n : Nat) (h0 : 0 ≤ x)
    (hlt : x < 10 ^ 21) (hlo : (n : ℚ) ≤ x * 10 ^ f + 1 / 2) (hhi : x * 10 ^ f + 1 / 2 < n + 1) :
    toFixed ts x f = fixedDigits n f := by
  have hfloor : ⌊x * 10 ^ f + 1 / 2⌋₊ = n :=
    (Nat.floor_eq_iff (by positivity)).mpr ⟨hlo, hhi⟩
  unfold toFixed
  simp only [abs_of_nonneg h0, if_neg (not_lt.mpr h0), if_neg (not_le.mpr hlt), hfloor]
  simp

theorem toFixed_of_neg (ts : ℚ → String) (x : ℚ) (f n : Nat) (h0 : x < 0)
    (hlt : -x < 10 ^ 21) (hlo : (n : ℚ) ≤ -x * 10 ^ f + 1 / 2)
    (hhi : -x * 10 ^ f + 1 / 2 < n + 1) :
    toFixed ts x f = "-" ++ fixedDigits n f := by
  have hpos : (0 : ℚ) ≤ -x := by linarith
  have hfloor : ⌊-x * 10 ^ f + 1 / 2⌋₊ = n :=
    (Nat.floor_eq_iff (by positivity)).mpr ⟨hlo, hhi⟩
  unfold toFixed
  simp only [abs_of_neg h0, if_pos h0, if_neg (not_le.mpr hlt), hfloor]

theorem fixedDigits_3910000 : fixedDigits 3910000 5 = "39.10000" := by decide

theorem fixedDigits_3910001 : fixedDigits 3910001 5 = "39.10001" := by decide

theorem fixedDigits_9458000 : fixedDigits 9458000 5 = "94.58000" := by decide

theorem fixedDigits_9458001 : fixedDigits 9458001 5 = "94.58001" := by decide

theorem toFixed_lat3910 (ts : ℚ → String) : toFixed ts lat3910 5 = "39.10000" := by
  rw [toFixed_of_nonneg ts lat3910 5 3910000 (by norm_num [lat3910]) (by norm_num [lat3910])
    (by norm_num [lat3910]) (by norm_num [lat3910]), fixedDigits_3910000]

theorem toFixed_lat3910001 (ts : ℚ → String) : toFixed ts lat3910001 5 = "39.10001" := by
  rw [toFixed_of_nonneg ts lat3910001 5 3910001 (by norm_num [lat3910001])
    (by norm_num [lat3910001]) (by norm_num [lat3910001]) (by norm_num [lat3910001]),
    fixedDigits_3910001]

theorem toFixed_lonM9458 (ts : ℚ → String) : toFixed ts lonM9458 5 = "-94.58000" := by
  rw [toFixed_of_neg ts lonM9458 5 9458000 (by norm_num [lonM9458]) (by norm_num [lonM9458])
    (by norm_num [lonM9458]) (by norm_num [lonM9458]), fixedDigits_9458000]
  decide

theorem toFixed_lonM9458001 (ts : ℚ → String) : toFixed ts lonM9458001 5 = "-94.58001" := by
  rw [toFixed_of_neg ts lonM9458001 5 9458001 (by norm_num [lonM9458001])
    (by norm_num [lonM9458001]) (by norm_num [lonM9458001]) (by norm_num [lonM9458001]),
    fixedDigits_9458001]
  decide

theorem fixedDigits_zero : fixedDigits 0 5 = "0.00000" := by decide

theorem toFixed_small_negative (ts : ℚ → String) :
    toFixed ts (-1 / 1000000) 5 = "-0.00000" ∧ toFixed ts (1 / 1000000) 5 = "0.00000" := by
  constructor
  · rw [toFixed_of_neg ts (-1 / 1000000) 5 0 (by norm_num) (by norm_num) (by norm_num)
      (by norm_num), fixedDigits_zero]
    decide
  · rw [toFixed_of_nonneg ts (1 / 1000000) 5 0 (by norm_num) (by norm_num) (by norm_num)
      (by norm_num), fixedDigits_zero]

theorem toFixed_zero (ts : ℚ → String) : toFixed ts 0 5 = "0.00000" := by
  rw [toFixed_of_nonneg ts 0 5 0 (by norm_num) (by norm_num) (by norm_num) (by norm_num),
    fixedDigits_zero]

theorem toFixed_tiny (ts : ℚ → String) : toFixed ts tiny 5 = "0.00000" := by
  rw [toFixed_of_nonneg ts tiny 5 0 (by norm_num [tiny]) (by norm_num [tiny])
    (by norm_num [tiny]) (by norm_num [tiny]), fixedDigits_zero]

theorem toFixed_neg_tiny (ts : ℚ → String) : toFixed ts (-tiny) 5 = "-0.00000" := by
  rw [toFixed_of_neg ts (-tiny) 5 0 (by norm_num [tiny]) (by norm_num [tiny])
    (by norm_num [tiny]) (by norm_num [tiny]), fixedDigits_zero]
  decide

theorem roundTo5_tiny : roundTo5 tiny = 0 := by
  have hfloor : ⌊tiny * 10 ^ 5 + 1 / 2⌋₊ = 0 :=
    (Nat.floor_eq_iff (by norm_num [tiny])).mpr ⟨by norm_num [tiny], by norm_num [tiny]⟩
  have hpos : ¬ tiny < 0 := by norm_num [tiny]
  rw [roundTo5, if_neg hpos, hfloor]
  norm_num

theorem roundTo5_neg_tiny : roundTo5 (-tiny) = 0 := by
  have hfloor : ⌊-(-tiny) * 10 ^ 5 + 1 / 2⌋₊ = 0 :=
    (Nat.floor_eq_iff (by norm_num [tiny])).mpr ⟨by norm_num [tiny], by norm_num [tiny]⟩
  have hneg : -tiny < 0 := by norm_num [tiny]
  rw [roundTo5, if_pos hneg, hfloor]
  norm_num

theorem processOverpassData_equator (ts : ℚ → String) :
    processOverpassData ts [nodeSouth, nodeNorth] =
      .ok [makeBuilding nodeSouth (-tiny) 0, makeBuilding nodeNorth tiny 0] := by
  have hne : ("-0.00000,0.00000" == "0.00000,0.00000") = false := by decide
  have hk1 : locationKey ts (-tiny) 0 = "-0.00000,0.00000" := by
    rw [locationKey, toFixed_neg_tiny, toFixed_zero]
    decide
  have hk2 : locationKey ts tiny 0 = "0.00000,0.00000" := by
    rw [locationKey, toFixed_tiny, toFixed_zero]
    decide
  simp [processOverpassData, processFrom, processElement, extractCoordinates, nodeSouth,
    nodeNorth, hk1, hk2, hne]

/-- C1, counterexample: two nodes a tenth of a metre on either side of the equator are both
returned, and their coordinate pairs rounded to 5 decimal places are the same pair `(0, 0)`;
the keys of the code are `-0.00000,0.00000` and `0.00000,0.00000`. -/
theorem rounded_pairs_can_coincide :
    processOverpassData noExponent [nodeSouth, nodeNorth] =
        .ok [makeBuilding nodeSouth (-tiny) 0, makeBuilding nodeNorth tiny 0] ∧
      (roundTo5 (makeBuilding nodeSouth (-tiny) 0).lat,
          roundTo5 (makeBuilding nodeSouth (-tiny) 0).lon) =
        (roundTo5 (makeBuilding nodeNorth tiny 0).lat,
          roundTo5 (makeBuilding nodeNorth tiny 0).lon) ∧
      ¬ [makeBuilding nodeSouth (-tiny) 0, makeBuilding nodeNorth tiny 0].Pairwise
        (fun a b => (roundTo5 a.lat, roundTo5 a.lon) ≠ (roundTo5 b.lat, roundTo5 b.lon)) := by
  have hpair : (roundTo5 (makeBuilding nodeSouth (-tiny) 0).lat,
      roundTo5 (makeBuilding nodeSouth (-tiny) 0).lon) =
      (roundTo5 (makeBuilding nodeNorth tiny 0).lat,
        roundTo5 (makeBuilding nodeNorth tiny 0).lon) := by
    rw [makeBuilding_lat, makeBuilding_lat, makeBuilding_lon, makeBuilding_lon,
      roundTo5_tiny, roundTo5_neg_tiny]
  refine ⟨processOverpassData_equator noExponent, hpair, ?_⟩
  intro hpw
  rw [List.pairwise_cons] at hpw
  exact hpw.1 _ (List.mem_singleton_self _) hpair

theorem locationKey_scenarioNode (ts : ℚ → String) :
    locationKey ts lat3910 lonM9458 = "39.10000,-94.58000" := by
  rw [locationKey, toFixed_lat3910, toFixed_lonM9458]
  decide

theorem locationKey_scenarioWay (ts : ℚ → String) :
    locationKey ts lat3910001 lonM9458001 = "39.10001,-94.58001" := by
  rw [locationKey, toFixed_lat3910001, toFixed_lonM9458001]
  decide

theorem processOverpassData_scenario (ts : ℚ → String) :
    processOverpassData ts [scenarioNode, scenarioWay] =
      .ok [makeBuilding scenarioNode lat3910 lonM9458,
        makeBuilding scenarioWay lat3910001 lonM9458001] := by
  have hne : ("39.10000,-94.58000" == "39.10001,-94.58001") = false := by decide
  simp [processOverpassData, processFrom, processElement, extractCoordinates, scenarioNode,
    scenarioWay, locationKey_scenarioNode, locationKey_scenarioWay, hne]

/-! ## Order of the output and first occurrence -/

theorem keptFrom_nil (ts : ℚ → String) (visited : List RawElement) :
    keptFrom ts visited [] = [] := by
  simp [keptFrom]

theorem keptFrom_cons (ts : ℚ → String) (visited rest : List RawElement) (e : RawElement) :
    keptFrom ts visited (e :: rest) =
      (keptAfter ts visited e).toList ++ keptFrom ts (visited ++ [e]) rest := by
  have hmap : List.map (fun t => visited ++ t) (List.map (fun t => e :: t) rest.inits) =
      List.map (fun t => visited ++ [e] ++ t) rest.inits := by
    rw [List.map_map]
    apply List.map_congr_left
    intro t _
    simp
  simp only [keptFrom, List.inits, List.map_cons, List.append_nil, List.zip_cons_cons,
    List.filterMap_cons, hmap]
  cases keptAfter ts visited e <;> simp

theorem firstOccurrences_eq_keptFrom (ts : ℚ → String) (elements : List RawElement) :
    firstOccurrences ts elements = keptFrom ts [] elements := by
  simp [firstOccurrences, keptFrom]

theorem any_key_iff (ts : ℚ → String) (visited : List RawElement) (k : String) :
    visited.any (fun e => keyOf ts e == some k) = true ↔
      ∃ e ∈ visited, keyOf ts e = some k := by
  simp [List.any_eq_true]

theorem processElement_spec (ts : ℚ → String) (visited : List RawElement)
    (bs : List Building) (seen : List String) (e : RawElement)
    (hcp : CoordinatesPresent e) (hseen : SeenMatches ts visited seen) :
    ∃ seen1, processElement ts (bs, seen) e =
        .ok (bs ++ (keptAfter ts visited e).toList.map buildingOf, seen1) ∧
      SeenMatches ts (visited ++ [e]) seen1 := by
  unfold CoordinatesPresent at hcp
  cases hx : extractCoordinates e with
  | none =>
    refine ⟨seen, ?_, ?_⟩
    · simp [processElement, keptAfter, coordinateOf, hx]
    · intro k
      rw [hseen k]
      constructor
      · rintro ⟨e1, h1, h2⟩
        exact ⟨e1, List.mem_append_left _ h1, h2⟩
      · rintro ⟨e1, h1, h2⟩
        rcases List.mem_append.mp h1 with h1 | h1
        · exact ⟨e1, h1, h2⟩
        · have : e1 = e := by simpa using h1
          subst this
          simp [keyOf, coordinateOf, hx] at h2
  | some c =>
    obtain ⟨olat, olon⟩ := c
    rw [hx] at hcp
    obtain ⟨hlat, hlon⟩ := hcp
    obtain ⟨lat, rfl⟩ := Option.isSome_iff_exists.mp hlat
    obtain ⟨lon, rfl⟩ := Option.isSome_iff_exists.mp hlon
    have hkey : keyOf ts e = some (locationKey ts lat lon) := by
      simp [keyOf, coordinateOf, hx]
    by_cases hmem : locationKey ts lat lon ∈ seen
    · have hany : visited.any (fun e1 => keyOf ts e1 == some (locationKey ts lat lon)) = true :=
        (any_key_iff ts visited _).mpr ((hseen _).mp hmem)
      refine ⟨seen, ?_, ?_⟩
      · simp [processElement, keptAfter, coordinateOf, hx, hmem, hany]
      · intro k
        rw [hseen k]
        constructor
        · rintro ⟨e1, h1, h2⟩
          exact ⟨e1, List.mem_append_left _ h1, h2⟩
        · rintro ⟨e1, h1, h2⟩
          rcases List.mem_append.mp h1 with h1 | h1
          · exact ⟨e1, h1, h2⟩
          · have : e1 = e := by simpa using h1
            subst this
            rw [hkey] at h2
            cases h2
            exact (hseen _).mp hmem
    · have hany : visited.any (fun e1 => keyOf ts e1 == some (locationKey ts lat lon)) = false := by
        rw [Bool.eq_false_iff]
        intro h
        exact hmem ((hseen _).mpr ((any_key_iff ts visited _).mp h))
      refine ⟨seen ++ [locationKey ts lat lon], ?_, ?_⟩
      · simp [processElement, keptAfter, coordinateOf, hx, hmem, hany, buildingOf]
      · intro k
        rw [List.mem_append, hseen k]
        constructor
        · rintro (⟨e1, h1, h2⟩ | h)
          · exact ⟨e1, List.mem_append_left _ h1, h2⟩
          · have : k = locationKey ts lat lon := by simpa using h
            subst this
            exact ⟨e, List.mem_append_right _ (List.mem_singleton_self e), hkey⟩
        · rintro ⟨e1, h1, h2⟩
          rcases List.mem_append.mp h1 with h1 | h1
          · exact Or.inl ⟨e1, h1, h2⟩
          · have : e1 = e := by simpa using h1
            subst this
            rw [hkey] at h2
            cases h2
            exact Or.inr (List.mem_singleton_self _)

theorem processFrom_spec (ts : ℚ → String) (rest : List RawElement) :
    ∀ (visited : List RawElement) (bs : List Building) (seen : List String),
      (∀ e ∈ rest, CoordinatesPresent e) → SeenMatches ts visited seen →
      ∃ seen1, processFrom ts rest (bs, seen) =
        .ok (bs ++ (keptFrom ts visited rest).map buildingOf, seen1) := by
  induction rest with
  | nil =>
    intro visited bs seen _ _
    exact ⟨seen, by simp [processFrom, keptFrom_nil]⟩
  | cons e rest ih =>
    intro visited bs seen hcp hseen
    obtain ⟨seen1, hstep, hseen1⟩ :=
      processElement_spec ts visited bs seen e (hcp e (List.mem_cons_self e rest)) hseen
    obtain ⟨seen2, hrest⟩ := ih (visited ++ [e])
      (bs ++ (keptAfter ts visited e).toList.map buildingOf) seen1
      (fun e1 h1 => hcp e1 (List.mem_cons_of_mem e h1)) hseen1
    refine ⟨seen2, ?_⟩
    simp only [processFrom, hstep, hrest, keptFrom_cons, List.map_append, List.append_assoc]

theorem keptAfter_fst (ts : ℚ → String) (visited : List RawElement) (e : RawElement)
    (p : RawElement × ℚ × ℚ) (h : keptAfter ts visited e = some p) :
    p.1 = e ∧ coordinateOf e = some p.2 := by
  unfold keptAfter at h
  split at h
  · cases h
  · rename_i lat lon hc
    split at h
    · cases h
    · cases h
      exact ⟨rfl, hc⟩

theorem keptFrom_sublist (ts : ℚ → String) (rest : List RawElement) :
    ∀ visited : List RawElement, ((keptFrom ts visited rest).map Prod.fst).Sublist rest := by
  induction rest with
  | nil =>
    intro visited
    simp [keptFrom_nil]
  | cons e rest ih =>
    intro visited
    rw [keptFrom_cons, List.map_append]
    cases hk : keptAfter ts visited e with
    | none =>
      simpa using (ih (visited ++ [e])).cons e
    | some p =>
      have := (keptAfter_fst ts visited e p hk).1
      simp only [Option.toList, List.map_cons, List.map_nil, List.singleton_append, this]
      exact (ih (visited ++ [e])).cons₂ e

theorem keptFrom_coordinate (ts : ℚ → String) (rest : List RawElement) :
    ∀ visited : List RawElement, ∀ p ∈ keptFrom ts visited rest,
      coordinateOf p.1 = some p.2 := by
  induction rest with
  | nil =>
    intro visited p hp
    simp [keptFrom_nil] at hp
  | cons e rest ih =>
    intro visited p hp
    rw [keptFrom_cons, List.mem_append] at hp
    rcases hp with hp | hp
    · have hk : keptAfter ts visited e = some p := by
        cases hk : keptAfter ts visited e with
        | none => simp [hk] at hp
        | some q =>
          have : p = q := by simpa [hk] using hp
          rw [this]
      obtain ⟨h1, h2⟩ := keptAfter_fst ts visited e p hk
      rw [h1]
      exact h2
    · exact ih (visited ++ [e]) p hp

/-- C2: when every element that selects a coordinate source has both components,
`processOverpassData` returns the buildings of the first occurrences: the subsequence of the
input made of the elements that have a coordinate and whose key occurs at no earlier element,
in input order, each building carrying the id and the coordinates of its element. -/
theorem processOverpassData_first_occurrence_wins (numberToString : ℚ → String)
    (elements : List RawElement) (h : ∀ e ∈ elements, CoordinatesPresent e) :
    processOverpassData numberToString elements =
        .ok ((firstOccurrences numberToString elements).map buildingOf) ∧
      ((firstOccurrences numberToString elements).map Prod.fst).Sublist elements ∧
      ∀ p ∈ firstOccurrences numberToString elements,
        coordinateOf p.1 = some p.2 ∧ (buildingOf p).id = p.1.id ∧
          (buildingOf p).lat = p.2.1 ∧ (buildingOf p).lon = p.2.2 := by
  refine ⟨?_, ?_, ?_⟩
  · obtain ⟨seen1, hrun⟩ := processFrom_spec numberToString elements [] [] [] h
      (by intro k; simp)
    simp [processOverpassData, hrun, firstOccurrences_eq_keptFrom]
  · rw [firstOccurrences_eq_keptFrom]
    exact keptFrom_sublist numberToString elements []
  · intro p hp
    rw [firstOccurrences_eq_keptFrom] at hp
    exact ⟨keptFrom_coordinate numberToString elements [] p hp, rfl, rfl, rfl⟩

/-- C1, witness: the scenario input, which yields two buildings. -/
theorem processOverpassData_no_duplicate_rounded_pair_witness :
    processOverpassData noExponent [scenarioNode, scenarioWay] =
        .ok [makeBuilding scenarioNode lat3910 lonM9458,
          makeBuilding scenarioWay lat3910001 lonM9458001] ∧
      [makeBuilding scenarioNode lat3910 lonM9458,
          makeBuilding scenarioWay lat3910001 lonM9458001].Pairwise (fun a b =>
        (toFixed noExponent a.lat 5, toFixed noExponent a.lon 5) ≠
          (toFixed noExponent b.lat 5, toFixed noExponent b.lon 5)) :=
  ⟨processOverpassData_scenario noExponent,
    processOverpassData_no_duplicate_rounded_pair noExponent [scenarioNode, scenarioWay] _
      (processOverpassData_scenario noExponent)⟩

theorem coordinatesPresent_scenarioWithSkips :
    ∀ e ∈ scenarioWithSkips, CoordinatesPresent e := by
  simp [scenarioWithSkips, CoordinatesPresent, extractCoordinates, scenarioNode, scenarioWay,
    wayWithoutCenter]

/-- C2, witness: an input with a way without center and a repeated node. -/
theorem processOverpassData_first_occurrence_wins_witness :
    (∀ e ∈ scenarioWithSkips, CoordinatesPresent e) ∧
      processOverpassData noExponent scenarioWithSkips =
        .ok ((firstOccurrences noExponent scenarioWithSkips).map buildingOf) ∧
      ((firstOccurrences noExponent scenarioWithSkips).map Prod.fst).Sublist
        scenarioWithSkips ∧
      ∀ p ∈ firstOccurrences noExponent scenarioWithSkips,
        coordinateOf p.1 = some p.2 ∧ (buildingOf p).id = p.1.id ∧
          (buildingOf p).lat = p.2.1 ∧ (buildingOf p).lon = p.2.2 :=
  ⟨coordinatesPresent_scenarioWithSkips,
    processOverpassData_first_occurrence_wins noExponent scenarioWithSkips
      coordinatesPresent_scenarioWithSkips⟩

theorem firstOccurrences_scenarioWithSkips (ts : ℚ → String) :
    firstOccurrences ts scenarioWithSkips =
      [(scenarioNode, lat3910, lonM9458), (scenarioWay, lat3910001, lonM9458001)] := by
  have hne : ("39.10000,-94.58000" == "39.10001,-94.58001") = false := by decide
  simp [firstOccurrences, scenarioWithSkips, List.inits, keptAfter, coordinateOf, keyOf,
    extractCoordinates, scenarioNode, scenarioWay, wayWithoutCenter,
    locationKey_scenarioNode, locationKey_scenarioWay, hne]

/-! ## Elements without coordinates -/

/-- C3: a node without `lat` and `lon` makes `processOverpassData` throw a `TypeError`, also
after elements that were processed, while a way without `center` is skipped. -/
theorem processOverpassData_node_without_coordinates_throws (numberToString : ℚ → String) :
    processOverpassData numberToString [nodeWithoutCoordinates] = .error .typeError ∧
      processOverpassData numberToString [wayWithoutCenter, nodeWithoutCoordinates] =
        .error .typeError ∧
      processOverpassData numberToString [wayWithoutCenter] = .ok [] := by
  simp [processOverpassData, processFrom, processElement, extractCoordinates,
    nodeWithoutCoordinates, wayWithoutCenter]

/-! ## Classification -/

theorem processElement_forall (ts : ℚ → String) (P : Building → Prop)
    (hP : ∀ e lat lon, P (makeBuilding e lat lon)) (state state1 : PassState) (e : RawElement)
    (h : processElement ts state e = .ok state1) (hall : ∀ b ∈ state.1, P b) :
    ∀ b ∈ state1.1, P b := by
  unfold processElement at h
  split at h
  · cases h; exact hall
  · cases h
  · cases h
  · rename_i lat lon _
    simp only at h
    split at h
    · cases h; exact hall
    · cases h
      intro b hb
      rcases List.mem_append.mp hb with hb | hb
      · exact hall b hb
      · have : b = makeBuilding e lat lon := by simpa using hb
        rw [this]
        exact hP e lat lon

theorem processFrom_forall (ts : ℚ → String) (P : Building → Prop)
    (hP : ∀ e lat lon, P (makeBuilding e lat lon)) (elements : List RawElement) :
    ∀ (state state1 : PassState), processFrom ts elements state = .ok state1 →
      (∀ b ∈ state.1, P b) → ∀ b ∈ state1.1, P b := by
  induction elements with
  | nil =>
    intro state state1 h hall
    simp only [processFrom] at h
    cases h
    exact hall
  | cons e rest ih =>
    intro state state1 h hall
    simp only [processFrom] at h
    split at h
    · rename_i s1 hs1
      exact ih s1 state1 h (processElement_forall ts P hP state s1 e hs1 hall)
    · cases h

theorem processOverpassData_forall (ts : ℚ → String) (P : Building → Prop)
    (hP : ∀ e lat lon, P (makeBuilding e lat lon)) (elements : List RawElement)
    (buildings : List Building) (h : processOverpassData ts elements = .ok buildings) :
    ∀ b ∈ buildings, P b := by
  unfold processOverpassData at h
  split at h
  · rename_i state hstate
    cases h
    exact processFrom_forall ts P hP elements ([], []) state hstate (by simp)
  · cases h

theorem getBuildingType_eq (tags : Tags) :
    getBuildingType tags = if templeByTags tags then "temple" else "meetinghouse" := by
  have absorb : ∀ a b c d : Bool, (a || b || c || (d && a)) = (a || b || c) := by decide
  unfold getBuildingType templeByTags
  simp only [absorb]

theorem makeBuilding_type (e : RawElement) (lat lon : ℚ) :
    (makeBuilding e lat lon).type = getBuildingType (makeBuilding e lat lon).tags :=
  rfl

theorem processOverpassData_englishNameOnly (ts : ℚ → String) :
    processOverpassData ts [englishNameOnly] =
      .ok [makeBuilding englishNameOnly lat3910 lonM9458] := by
  simp [processOverpassData, processFrom, processElement, extractCoordinates, englishNameOnly]

theorem processOverpassData_capitalBuildingTag (ts : ℚ → String) :
    processOverpassData ts [capitalBuildingTag] =
      .ok [makeBuilding capitalBuildingTag lat3910 lonM9458] := by
  simp [processOverpassData, processFrom, processElement, extractCoordinates,
    capitalBuildingTag]

/-- C4, counterexample: a node named through `name:en` only yields a building whose display name
contains "temple" and whose type is `meetinghouse`; a node whose building tag is `Temple`
yields a building of type `temple` although no condition of the claim holds for it. -/
theorem classification_counterexample :
    (processOverpassData noExponent [englishNameOnly] =
        .ok [makeBuilding englishNameOnly lat3910 lonM9458] ∧
      (makeBuilding englishNameOnly lat3910 lonM9458).name = "Provo Temple" ∧
      claimedTemple (makeBuilding englishNameOnly lat3910 lonM9458) = true ∧
      (makeBuilding englishNameOnly lat3910 lonM9458).type = "meetinghouse") ∧
    (processOverpassData noExponent [capitalBuildingTag] =
        .ok [makeBuilding capitalBuildingTag lat3910 lonM9458] ∧
      claimedTemple (makeBuilding capitalBuildingTag lat3910 lonM9458) = false ∧
      (makeBuilding capitalBuildingTag lat3910 lonM9458).type = "temple") := by
  refine ⟨⟨processOverpassData_englishNameOnly noExponent, ?_, ?_, ?_⟩,
    ⟨processOverpassData_capitalBuildingTag noExponent, ?_, ?_⟩⟩ <;> decide

/-- C4, amended: every building returned by `processOverpassData` has type `temple` exactly
when its lower-cased `name` tag contains "temple", or its lower-cased `denomination` tag
contains "temple", or its lower-cased `building` tag equals "temple"; otherwise its type is
`meetinghouse`. -/
theorem classification_by_tags (numberToString : ℚ → String) (elements : List RawElement)
    (buildings : List Building)
    (h : processOverpassData numberToString elements = .ok buildings) :
    ∀ b ∈ buildings,
      (b.type = "temple" ↔
        (includes (toLowerCase (orElse (b.tags.get "name") "")) "temple" = true ∨
          includes (toLowerCase (orElse (b.tags.get "denomination") "")) "temple" = true ∨
          toLowerCase (orElse (b.tags.get "building") "") = "temple")) ∧
      (b.type ≠ "temple" → b.type = "meetinghouse") := by
  have key : ∀ b ∈ buildings, b.type = getBuildingType b.tags :=
    processOverpassData_forall numberToString (fun b => b.type = getBuildingType b.tags)
      (fun e lat lon => makeBuilding_type e lat lon) elements buildings h
  intro b hb
  rw [key b hb, getBuildingType_eq]
  by_cases ht : templeByTags b.tags = true
  · simp only [ht, if_true, true_iff, ne_eq, not_true_eq_false, false_implies, and_true]
    simpa [templeByTags, Bool.or_eq_true, or_assoc] using ht
  · have hf : templeByTags b.tags = false := by simpa using ht
    have hne : ("meetinghouse" : String) ≠ "temple" := by decide
    simp only [hf, Bool.false_eq_true, if_false, hne, false_iff, ne_eq, not_false_eq_true,
      forall_true_left, and_true]
    simpa [templeByTags, Bool.or_eq_false_iff, and_assoc] using hf

/-- C4, witness: the two buildings of the scenario. -/
theorem classification_by_tags_witness :
    processOverpassData noExponent [scenarioNode, scenarioWay] =
        .ok [makeBuilding scenarioNode lat3910 lonM9458,
          makeBuilding scenarioWay lat3910001 lonM9458001] ∧
      ∀ b ∈ [makeBuilding scenarioNode lat3910 lonM9458,
          makeBuilding scenarioWay lat3910001 lonM9458001],
        (b.type = "temple" ↔
          (includes (toLowerCase (orElse (b.tags.get "name") "")) "temple" = true ∨
            includes (toLowerCase (orElse (b.tags.get "denomination") "")) "temple" = true ∨
            toLowerCase (orElse (b.tags.get "building") "") = "temple")) ∧
        (b.type ≠ "temple" → b.type = "meetinghouse") :=
  ⟨processOverpassData_scenario noExponent,
    classification_by_tags noExponent [scenarioNode, scenarioWay] _
      (processOverpassData_scenario noExponent)⟩

/-! ## The scenario -/

/-- C5, counterexample: the scenario input does not normalise to a single building. -/
theorem scenario_not_one_building :
    ¬ ∃ b, processOverpassData noExponent [scenarioNode, scenarioWay] = .ok [b] := by
  rw [processOverpassData_scenario]
  rintro ⟨b, hb⟩
  simp at hb

/-- C5, amended: the scenario input normalises to exactly two buildings, the node and then the
way, because their keys `39.10000,-94.58000` and `39.10001,-94.58001` differ in the fifth
decimal; both buildings have type `temple`. -/
theorem scenario_two_temples (numberToString : ℚ → String) :
    processOverpassData numberToString [scenarioNode, scenarioWay] =
        .ok [makeBuilding scenarioNode lat3910 lonM9458,
          makeBuilding scenarioWay lat3910001 lonM9458001] ∧
      locationKey numberToString lat3910 lonM9458 = "39.10000,-94.58000" ∧
      locationKey numberToString lat3910001 lonM9458001 = "39.10001,-94.58001" ∧
      (makeBuilding scenarioNode lat3910 lonM9458).type = "temple" ∧
      (makeBuilding scenarioWay lat3910001 lonM9458001).type = "temple" :=
  ⟨processOverpassData_scenario numberToString, locationKey_scenarioNode numberToString,
    locationKey_scenarioWay numberToString, by decide, by decide⟩

/-! ## Endpoint fallback -/

theorem failureOf_rejected (ts : ℚ → String) (err : JSError) :
    failureOf ts (.rejected err) = some err := rfl

theorem failureOf_rate_limited (ts : ℚ → String) (body : Except JSError (List RawElement)) :
    failureOf ts (.response 429 body) = some (.error "Rate limited (429)") := by
  simp [failureOf]

theorem failureOf_http_error (ts : ℚ → String) (status : Nat)
    (body : Except JSError (List RawElement)) (h429 : status ≠ 429)
    (hok : responseOk status = false) :
    failureOf ts (.response status body) =
      some (.error ("HTTP error! status: " ++ Nat.repr status)) := by
  simp [failureOf, h429, hok]

theorem fetchLoop_cons_fail (ts : ℚ → String) (endpoint : String) (outcome : Outcome)
    (rest : List (String × Outcome)) (lastError : Option JSError) (err : JSError)
    (h : failureOf ts outcome = some err) :
    fetchLoop ts ((endpoint, outcome) :: rest) lastError =
      (fetchLoop ts rest (some err)).after endpoint := by
  cases outcome with
  | rejected e =>
    simp only [failureOf, Option.some.injEq] at h
    simp only [fetchLoop, h]
  | response status body =>
    unfold failureOf at h
    simp only [fetchLoop]
    by_cases h429 : status = 429
    · simp only [h429, if_true, Option.some.injEq] at h ⊢
      rw [h]
    · simp only [h429, if_false] at h ⊢
      by_cases hok : responseOk status = true
      · simp only [hok, Bool.not_true, Bool.false_eq_true, if_false] at h ⊢
        cases body with
        | error e =>
          simp only [Option.some.injEq] at h
          simp only [h]
        | ok elements =>
          simp only at h ⊢
          cases hp : processOverpassData ts elements with
          | error e =>
            rw [hp] at h
            simp only [Option.some.injEq] at h
            simp only [h]
          | ok bs =>
            rw [hp] at h
            cases h
      · have hok1 : responseOk status = false := by simpa using hok
        simp only [hok1, Bool.not_false, if_true, Option.some.injEq] at h ⊢
        rw [h]

theorem fetchLoop_cons_success (ts : ℚ → String) (endpoint : String) (outcome : Outcome)
    (rest : List (String × Outcome)) (lastError : Option JSError) (buildings : List Building)
    (h : SucceedsWith ts outcome buildings) :
    fetchLoop ts ((endpoint, outcome) :: rest) lastError =
      { result := .ok buildings, queried := [endpoint] } := by
  obtain ⟨status, elements, rfl, h429, hok, hp⟩ := h
  simp [fetchLoop, h429, hok, hp]

theorem fetchLoop_fallback (ts : ℚ → String) (endpoint : String) (outcome : Outcome)
    (after : List (String × Outcome)) (buildings : List Building)
    (hsucc : SucceedsWith ts outcome buildings) :
    ∀ (before : List (String × Outcome)) (lastError : Option JSError),
      (∀ p ∈ before, failureOf ts p.2 ≠ none) →
      fetchLoop ts (before ++ (endpoint, outcome) :: after) lastError =
        { result := .ok buildings, queried := before.map Prod.fst ++ [endpoint] } := by
  intro before
  induction before with
  | nil =>
    intro lastError _
    simpa using fetchLoop_cons_success ts endpoint outcome after lastError buildings hsucc
  | cons p before ih =>
    intro lastError hfail
    obtain ⟨ep, o⟩ := p
    obtain ⟨err, herr⟩ := Option.ne_none_iff_exists'.mp (hfail (ep, o) (List.mem_cons_self _ _))
    rw [List.cons_append, fetchLoop_cons_fail ts ep o _ lastError err herr,
      ih (some err) (fun q hq => hfail q (List.mem_cons_of_mem _ hq))]
    simp [FetchRun.after]

theorem fetchLoop_exhausted (ts : ℚ → String) (endpoint : String) (outcome : Outcome)
    (err : JSError) (hlast : failureOf ts outcome = some err) :
    ∀ (front : List (String × Outcome)) (lastError : Option JSError),
      (∀ p ∈ front, failureOf ts p.2 ≠ none) →
      fetchLoop ts (front ++ [(endpoint, outcome)]) lastError =
        { result := .error err, queried := front.map Prod.fst ++ [endpoint] } := by
  intro front
  induction front with
  | nil =>
    intro lastError _
    rw [List.nil_append, fetchLoop_cons_fail ts endpoint outcome [] lastError err hlast]
    simp [fetchLoop, FetchRun.after]
  | cons p front ih =>
    intro lastError hfail
    obtain ⟨ep, o⟩ := p
    obtain ⟨e1, he1⟩ := Option.ne_none_iff_exists'.mp (hfail (ep, o) (List.mem_cons_self _ _))
    rw [List.cons_append, fetchLoop_cons_fail ts ep o _ lastError e1 he1,
      ih (some e1) (fun q hq => hfail q (List.mem_cons_of_mem _ hq))]
    simp [FetchRun.after]

/-- C6: when the endpoints before position `k` all fail (transport error, status 429, another
status outside 200-299, or a body that cannot be processed) and the endpoint at position `k`
succeeds with `buildings`, `fetchLDSBuildings` returns `buildings` and the endpoints queried
are the `k` earlier ones in list order followed by endpoint `k`: none after it. -/
theorem fetchLDSBuildings_fallback_order (numberToString : ℚ → String)
    (before after : List (String × Outcome)) (endpoint : String) (outcome : Outcome)
    (buildings : List Building) (k : Nat) (hk : before.length = k)
    (hfail : ∀ p ∈ before, failureOf numberToString p.2 ≠ none)
    (hsucc : SucceedsWith numberToString outcome buildings) :
    (fetchLDSBuildings numberToString (before ++ (endpoint, outcome) :: after)).result =
        .ok buildings ∧
      (fetchLDSBuildings numberToString (before ++ (endpoint, outcome) :: after)).queried =
        before.map Prod.fst ++ [endpoint] ∧
      (fetchLDSBuildings numberToString (before ++ (endpoint, outcome) :: after)).queried.length =
        k + 1 := by
  unfold fetchLDSBuildings
  rw [fetchLoop_fallback numberToString endpoint outcome after buildings hsucc before none hfail]
  simp [hk]

/-- C7: when every endpoint of a non-empty list fails, `fetchLDSBuildings` throws the error
left by the last endpoint, after querying every endpoint in order: the rate-limit error when
that endpoint answered 429, the status error when it answered another status outside
200-299, the rejection reason when the transport failed.  On an empty list it throws the
generic error. -/
theorem fetchLDSBuildings_exhaustion (numberToString : ℚ → String)
    (front : List (String × Outcome)) (endpoint : String) (outcome : Outcome) (err : JSError)
    (hfront : ∀ p ∈ front, failureOf numberToString p.2 ≠ none)
    (hlast : failureOf numberToString outcome = some err) :
    (fetchLDSBuildings numberToString (front ++ [(endpoint, outcome)])).result = .error err ∧
      (fetchLDSBuildings numberToString (front ++ [(endpoint, outcome)])).queried =
        (front ++ [(endpoint, outcome)]).map Prod.fst ∧
      (∀ body, outcome = .response 429 body → err = .error "Rate limited (429)") ∧
      (∀ status body, outcome = .response status body → status ≠ 429 →
        responseOk status = false →
        err = .error ("HTTP error! status: " ++ Nat.repr status)) ∧
      (∀ e, outcome = .rejected e → err = e) ∧
      (fetchLDSBuildings numberToString []).result = .error (.error "Overpass request failed") := by
  refine ⟨?_, ?_, ?_, ?_, ?_, ?_⟩
  · unfold fetchLDSBuildings
    rw [fetchLoop_exhausted numberToString endpoint outcome err hlast front none hfront]
  · unfold fetchLDSBuildings
    rw [fetchLoop_exhausted numberToString endpoint outcome err hlast front none hfront]
    simp
  · intro body hout
    rw [hout, failureOf_rate_limited] at hlast
    exact (Option.some.inj hlast).symm
  · intro status body hout h429 hok
    rw [hout, failureOf_http_error numberToString status body h429 hok] at hlast
    exact (Option.some.inj hlast).symm
  · intro e hout
    rw [hout, failureOf_rejected] at hlast
    exact (Option.some.inj hlast).symm
  · rfl

theorem succeedsWith_scenario (ts : ℚ → String) :
    SucceedsWith ts (.response 200 (.ok [scenarioNode, scenarioWay]))
      [makeBuilding scenarioNode lat3910 lonM9458,
        makeBuilding scenarioWay lat3910001 lonM9458001] :=
  ⟨200, [scenarioNode, scenarioWay], rfl, by decide, by decide, processOverpassData_scenario ts⟩

/-- C6, witness: the first mirror answers 429, the second one answers with the scenario, the
third one is not queried. -/
theorem fetchLDSBuildings_fallback_order_witness :
    (fetchLDSBuildings noExponent secondMirrorAnswers).result =
        .ok [makeBuilding scenarioNode lat3910 lonM9458,
          makeBuilding scenarioWay lat3910001 lonM9458001] ∧
      (fetchLDSBuildings noExponent secondMirrorAnswers).queried =
        ["https://overpass-api.de/api/interpreter",
          "https://overpass.kumi.systems/api/interpreter"] ∧
      (fetchLDSBuildings noExponent secondMirrorAnswers).queried.length = 1 + 1 :=
  fetchLDSBuildings_fallback_order noExponent
    [("https://overpass-api.de/api/interpreter", .response 429 (.ok []))]
    [("https://lz4.overpass-api.de/api/interpreter", .response 200 (.ok []))]
    "https://overpass.kumi.systems/api/interpreter"
    (.response 200 (.ok [scenarioNode, scenarioWay])) _ 1 rfl
    (by simp [failureOf]) (succeedsWith_scenario noExponent)

/-- C7, witness: three failing mirrors, the last one with status 504. -/
theorem fetchLDSBuildings_exhaustion_witness :
    (fetchLDSBuildings noExponent allMirrorsFail).result =
      .error (.error "HTTP error! status: 504") :=
  (fetchLDSBuildings_exhaustion noExponent
    [("https://overpass-api.de/api/interpreter", .response 429 (.ok [])),
     ("https://overpass.kumi.systems/api/interpreter", .rejected (.rejected "Failed to fetch"))]
    "https://lz4.overpass-api.de/api/interpreter" (.response 504 (.ok []))
    (.error "HTTP error! status: 504") (by simp [failureOf]) (by decide)).1

/-! ## Filtering -/

theorem foldl_addBuildingMarker_attributes (buildings : List Building) :
    ∀ layer : List Graphic,
      (buildings.foldl addBuildingMarker layer).map (fun g => g.attributes) =
        layer.map (fun g => g.attributes) ++ buildings := by
  induction buildings with
  | nil => intro layer; simp
  | cons b rest ih =>
    intro layer
    rw [List.foldl_cons, ih]
    simp [addBuildingMarker]

theorem filterBuildings_attributes (s : PresenterState) (filterType : String) :
    (filterBuildings s filterType).graphics.map (fun g => g.attributes) =
      (if filterType = "temple" then s.allBuildings.filter (fun b => b.type == "temple")
        else if filterType = "meetinghouse" then
          s.allBuildings.filter (fun b => b.type == "meetinghouse")
        else s.allBuildings) := by
  unfold filterBuildings
  simp only [foldl_addBuildingMarker_attributes, List.map_nil, List.nil_append]

theorem filterBuildings_graphics_length (s : PresenterState) (filterType : String) :
    (filterBuildings s filterType).graphics.length =
      (if filterType = "temple" then s.allBuildings.filter (fun b => b.type == "temple")
        else if filterType = "meetinghouse" then
          s.allBuildings.filter (fun b => b.type == "meetinghouse")
        else s.allBuildings).length := by
  rw [← filterBuildings_attributes, List.length_map]

theorem filterBuildings_statsText (s : PresenterState) (filterType : String) :
    (filterBuildings s filterType).statsText =
      updateStats s.statsText s.allBuildings.length (filterBuildings s filterType).graphics.length
        (s.allBuildings.countP (fun b => b.type == "temple"))
        (s.allBuildings.countP (fun b => b.type == "meetinghouse")) := by
  rw [filterBuildings_graphics_length]
  simp only [filterBuildings, List.countP_eq_length_filter]

theorem filterBuildings_graphics_count (s : PresenterState) (filterType : String)
    (h : filterType = "all" ∨ filterType = "temple" ∨ filterType = "meetinghouse") :
    (filterBuildings s filterType).graphics.map (fun g => g.attributes) =
      s.allBuildings.filter (fun b => filterType == "all" || b.type == filterType) := by
  rw [filterBuildings_attributes]
  rcases h with h | h | h
  · subst h
    have h1 : ("all" : String) ≠ "temple" := by decide
    have h2 : ("all" : String) ≠ "meetinghouse" := by decide
    simp [h1, h2]
  · subst h
    have h1 : (("temple" : String) == "all") = false := by decide
    simp [h1]
  · subst h
    have h1 : ("meetinghouse" : String) ≠ "temple" := by decide
    have h2 : (("meetinghouse" : String) == "all") = false := by decide
    simp [h1, h2]

/-- C8: for a filter among `all`, `temple` and `meetinghouse`, the markers left by
`filterBuildings` are those of the stored buildings whose type equals the filter (all of them
for `all`), in list order, so that their number is the number of such buildings; the stored
list is unchanged; the text of the statistics element, when the document has one, becomes
`Showing V of T buildings (A temples, M meetinghouses)` with `V` the number of markers, `T`
the length of the stored list, `A` the number of stored temples and `M` the number of stored
meetinghouses, and stays absent otherwise. -/
theorem filterBuildings_renders_and_counts (s : PresenterState) (filterType : String)
    (h : filterType = "all" ∨ filterType = "temple" ∨ filterType = "meetinghouse") :
    (filterBuildings s filterType).graphics.map (fun g => g.attributes) =
        s.allBuildings.filter (fun b => filterType == "all" || b.type == filterType) ∧
      (filterBuildings s filterType).allBuildings = s.allBuildings ∧
      (filterBuildings s filterType).graphics.length =
        s.allBuildings.countP (fun b => filterType == "all" || b.type == filterType) ∧
      (filterBuildings s filterType).statsText =
        s.statsText.map (fun _ =>
          "Showing " ++
            Nat.repr (s.allBuildings.countP
              (fun b => filterType == "all" || b.type == filterType)) ++
            " of " ++ Nat.repr s.allBuildings.length ++ " buildings (" ++
            Nat.repr (s.allBuildings.countP (fun b => b.type == "temple")) ++ " temples, " ++
            Nat.repr (s.allBuildings.countP (fun b => b.type == "meetinghouse")) ++
            " meetinghouses)") := by
  have hlen : (filterBuildings s filterType).graphics.length =
      s.allBuildings.countP (fun b => filterType == "all" || b.type == filterType) := by
    rw [List.countP_eq_length_filter, ← filterBuildings_graphics_count s filterType h,
      List.length_map]
  refine ⟨filterBuildings_graphics_count s filterType h, rfl, hlen, ?_⟩
  rw [filterBuildings_statsText, hlen]
  cases s.statsText <;> rfl

/-- C8, witness: the temple filter on 3 temples and 5 meetinghouses. -/
theorem filterBuildings_renders_and_counts_witness :
    (filterBuildings threeTemplesFiveMeetinghouses "temple").graphics.map
          (fun g => g.attributes) =
        threeTemplesFiveMeetinghouses.allBuildings.filter
          (fun b => "temple" == "all" || b.type == "temple") ∧
      (filterBuildings threeTemplesFiveMeetinghouses "temple").allBuildings =
        threeTemplesFiveMeetinghouses.allBuildings ∧
      (filterBuildings threeTemplesFiveMeetinghouses "temple").graphics.length =
        threeTemplesFiveMeetinghouses.allBuildings.countP
          (fun b => "temple" == "all" || b.type == "temple") ∧
      (filterBuildings threeTemplesFiveMeetinghouses "temple").statsText =
        threeTemplesFiveMeetinghouses.statsText.map (fun _ =>
          "Showing " ++
            Nat.repr (threeTemplesFiveMeetinghouses.allBuildings.countP
              (fun b => "temple" == "all" || b.type == "temple")) ++
            " of " ++ Nat.repr threeTemplesFiveMeetinghouses.allBuildings.length ++
            " buildings (" ++
            Nat.repr (threeTemplesFiveMeetinghouses.allBuildings.countP
              (fun b => b.type == "temple")) ++ " temples, " ++
            Nat.repr (threeTemplesFiveMeetinghouses.allBuildings.countP
              (fun b => b.type == "meetinghouse")) ++
            " meetinghouses)") :=
  filterBuildings_renders_and_counts threeTemplesFiveMeetinghouses "temple"
    (Or.inr (Or.inl rfl))

/-- C9, counterexample: on 3 temples and 5 meetinghouses the temple filter writes a text with
the word `buildings` after the total, which the text of the claim lacks. -/
theorem summary_text_counterexample :
    (filterBuildings threeTemplesFiveMeetinghouses "temple").statsText =
        some "Showing 3 of 8 buildings (3 temples, 5 meetinghouses)" ∧
      (filterBuildings threeTemplesFiveMeetinghouses "temple").statsText ≠
        some "Showing 3 of 8 (3 temples, 5 meetinghouses)" := by
  have h : (filterBuildings threeTemplesFiveMeetinghouses "temple").statsText =
      some "Showing 3 of 8 buildings (3 temples, 5 meetinghouses)" := by
    rw [filterBuildings_statsText, filterBuildings_graphics_length]
    decide
  refine ⟨h, ?_⟩
  rw [h]
  decide

/-- C9, amended: when the statistics element exists, the text written by `filterBuildings` is
`Showing V of T buildings (A temples, M meetinghouses)` with `V` the number of markers, `T`
the length of the stored list, `A` and `M` the numbers of stored temples and meetinghouses;
for a stored list of 3 temples and 5 meetinghouses the temple filter leaves 3 markers and the
text `Showing 3 of 8 buildings (3 temples, 5 meetinghouses)`. -/
theorem summary_text_shape (s : PresenterState) (filterType previous : String)
    (h : s.statsText = some previous) :
    (filterBuildings s filterType).statsText =
        some ("Showing " ++ Nat.repr (filterBuildings s filterType).graphics.length ++ " of " ++
          Nat.repr s.allBuildings.length ++ " buildings (" ++
          Nat.repr (s.allBuildings.countP (fun b => b.type == "temple")) ++ " temples, " ++
          Nat.repr (s.allBuildings.countP (fun b => b.type == "meetinghouse")) ++
          " meetinghouses)") ∧
      (filterType = "temple" → s.allBuildings.length = 8 →
        s.allBuildings.countP (fun b => b.type == "temple") = 3 →
        s.allBuildings.countP (fun b => b.type == "meetinghouse") = 5 →
        (filterBuildings s filterType).graphics.length = 3 ∧
          (filterBuildings s filterType).statsText =
            some "Showing 3 of 8 buildings (3 temples, 5 meetinghouses)") := by
  have hshape : (filterBuildings s filterType).statsText =
      some (statsMessage s.allBuildings.length (filterBuildings s filterType).graphics.length
        (s.allBuildings.countP (fun b => b.type == "temple"))
        (s.allBuildings.countP (fun b => b.type == "meetinghouse"))) := by
    rw [filterBuildings_statsText, h]
    rfl
  refine ⟨hshape, ?_⟩
  intro hft h8 h3 h5
  have hvis : (filterBuildings s filterType).graphics.length = 3 := by
    rw [filterBuildings_graphics_length, if_pos hft, ← List.countP_eq_length_filter, h3]
  refine ⟨hvis, ?_⟩
  rw [hshape, hvis, h8, h3, h5]
  decide

/-- C9, witness: the state with 3 temples and 5 meetinghouses. -/
theorem summary_text_shape_witness :
    (filterBuildings threeTemplesFiveMeetinghouses "temple").graphics.length = 3 ∧
      (filterBuildings threeTemplesFiveMeetinghouses "temple").statsText =
        some "Showing 3 of 8 buildings (3 temples, 5 meetinghouses)" :=
  (summary_text_shape threeTemplesFiveMeetinghouses "temple" "" rfl).2 rfl (by decide)
    (by decide) (by decide)

/-! ## Zoom level -/

theorem zoomLevel_antitone (s1 s2 : ℚ) (h : s1 ≤ s2) : zoomLevel s2 ≤ zoomLevel s1 := by
  unfold zoomLevel
  split_ifs <;> first | decide | (exfalso; linarith)

theorem zoomToBuildings_cons (fa : FloatArith) (first : Building) (others : List Building) :
    ∃ v, zoomToBuildings fa (first :: others) = some v ∧
      v.zoom = zoomLevel (maxSpread fa first others) :=
  ⟨_, rfl, rfl⟩

/-- C10: for two non-empty building lists whose spans `s1 < s2` (the larger of the latitude
and longitude extents) both exceed the threshold 0.1, `zoomToBuildings` selects for the first
list a zoom level at least as large as for the second one.  The proof does not use the two
threshold hypotheses: the step table is antitone on all spans. -/
theorem zoomToBuildings_monotone (fa : FloatArith) (first1 first2 : Building)
    (others1 others2 : List Building) (s1 s2 : ℚ)
    (hs1 : maxSpread fa first1 others1 = s1) (hs2 : maxSpread fa first2 others2 = s2)
    (hlt : s1 < s2) (_h1 : tenth < s1) (_h2 : tenth < s2) :
    ∃ v1 v2, zoomToBuildings fa (first1 :: others1) = some v1 ∧
      zoomToBuildings fa (first2 :: others2) = some v2 ∧
      v1.zoom = zoomLevel s1 ∧ v2.zoom = zoomLevel s2 ∧ v2.zoom ≤ v1.zoom := by
  obtain ⟨v1, hv1, hz1⟩ := zoomToBuildings_cons fa first1 others1
  obtain ⟨v2, hv2, hz2⟩ := zoomToBuildings_cons fa first2 others2
  rw [hs1] at hz1
  rw [hs2] at hz2
  refine ⟨v1, v2, hv1, hv2, hz1, hz2, ?_⟩
  rw [hz1, hz2]
  exact zoomLevel_antitone s1 s2 (le_of_lt hlt)

theorem maxSpread_small :
    maxSpread exactArith (sampleBuilding 1 "temple" 39 (-94))
      [sampleBuilding 2 "meetinghouse" (393 / 10) (-94)] = 3 / 10 := by
  simp only [maxSpread, mathMin, mathMax, exactArith, sampleBuilding, List.map_cons,
    List.map_nil, List.foldl_cons, List.foldl_nil]
  norm_num

theorem maxSpread_large :
    maxSpread exactArith (sampleBuilding 1 "temple" 39 (-94))
      [sampleBuilding 2 "meetinghouse" 40 (-91)] = 3 := by
  simp only [maxSpread, mathMin, mathMax, exactArith, sampleBuilding, List.map_cons,
    List.map_nil, List.foldl_cons, List.foldl_nil]
  norm_num

/-- C10, witness: a span of 0.3 degrees against a span of 3 degrees. -/
theorem zoomToBuildings_monotone_witness :
    ∃ v1 v2,
      zoomToBuildings exactArith
          [sampleBuilding 1 "temple" 39 (-94), sampleBuilding 2 "meetinghouse" (393 / 10) (-94)] =
        some v1 ∧
      zoomToBuildings exactArith
          [sampleBuilding 1 "temple" 39 (-94), sampleBuilding 2 "meetinghouse" 40 (-91)] =
        some v2 ∧
      v1.zoom = zoomLevel (3 / 10) ∧ v2.zoom = zoomLevel 3 ∧ v2.zoom ≤ v1.zoom :=
  zoomToBuildings_monotone exactArith _ _ _ _ (3 / 10) 3 maxSpread_small maxSpread_large
    (by norm_num) (by norm_num [tenth]) (by norm_num [tenth])

theorem zoomLevel_values :
    zoomLevel (3 / 10) = 10 ∧ zoomLevel (3 / 4) = 8 ∧ zoomLevel (3 / 2) = 7 ∧
      zoomLevel 3 = 6 ∧ zoomLevel 7 = 5 ∧ zoomLevel 11 = 4 ∧ zoomLevel (1 / 20) = 10 := by
  refine ⟨?_, ?_, ?_, ?_, ?_, ?_, ?_⟩ <;> norm_num [zoomLevel, tenth]

/-! ## Address format -/

theorem truthy_cases (v : Option String) :
    (truthy v = false ∧ presentValue v = none) ∨
      ∃ t, truthy v = true ∧ presentValue v = some t ∧ v.getD "" = t := by
  cases v with
  | none => exact Or.inl ⟨rfl, rfl⟩
  | some t =>
    by_cases h : t = ""
    · subst h
      exact Or.inl ⟨by decide, by decide⟩
    · exact Or.inr ⟨t, by simp [truthy, h], by simp [presentValue, h], rfl⟩

theorem formatAddress_eq_present (tags : Tags) :
    formatAddress tags =
      if presentAddressParts tags = [] then "Address not available"
      else String.intercalate ", " (presentAddressParts tags) := by
  unfold formatAddress presentAddressParts streetLine
  rcases truthy_cases (tags.get "addr:housenumber") with ⟨h1, p1⟩ | ⟨t1, h1, p1, g1⟩ <;>
  rcases truthy_cases (tags.get "addr:street") with ⟨h2, p2⟩ | ⟨t2, h2, p2, g2⟩ <;>
  rcases truthy_cases (tags.get "addr:city") with ⟨h3, p3⟩ | ⟨t3, h3, p3, g3⟩ <;>
  rcases truthy_cases (tags.get "addr:state") with ⟨h4, p4⟩ | ⟨t4, h4, p4, g4⟩ <;>
  rcases truthy_cases (tags.get "addr:postcode") with ⟨h5, p5⟩ | ⟨t5, h5, p5, g5⟩ <;>
  simp [*, List.reduceOption]

theorem presentAddressParts_eq_nil (tags : Tags) :
    presentAddressParts tags = [] ↔
      presentValue (tags.get "addr:street") = none ∧
        presentValue (tags.get "addr:city") = none ∧
        presentValue (tags.get "addr:state") = none ∧
        presentValue (tags.get "addr:postcode") = none := by
  unfold presentAddressParts streetLine
  cases presentValue (tags.get "addr:housenumber") <;>
  cases presentValue (tags.get "addr:street") <;>
  cases presentValue (tags.get "addr:city") <;>
  cases presentValue (tags.get "addr:state") <;>
  cases presentValue (tags.get "addr:postcode") <;>
  simp [List.reduceOption]

/-- C11, counterexample: with a house number and no other address tag, an address part is
present and `formatAddress` returns the sentinel. -/
theorem formatAddress_house_number_only :
    houseNumberOnly.get "addr:housenumber" = some "123" ∧
      formatAddress houseNumberOnly = "Address not available" := by
  constructor <;> decide

/-- C11, amended: `formatAddress` returns the present address parts in the order street line
(house number and street, or the street alone; a house number without street is left out),
city, state, postal code, joined by `", "`; it takes the sentinel branch exactly when none of
street, city, state and postal code is present. -/
theorem formatAddress_present_parts (tags : Tags) :
    formatAddress tags =
        (if presentAddressParts tags = [] then "Address not available"
          else String.intercalate ", " (presentAddressParts tags)) ∧
      (presentAddressParts tags = [] ↔
        presentValue (tags.get "addr:street") = none ∧
          presentValue (tags.get "addr:city") = none ∧
          presentValue (tags.get "addr:state") = none ∧
          presentValue (tags.get "addr:postcode") = none) :=
  ⟨formatAddress_eq_present tags, presentAddressParts_eq_nil tags⟩

theorem formatAddress_fullAddress :
    formatAddress fullAddress = "7001 Searcy Creek Parkway, Kansas City, MO, 64119" ∧
      presentAddressParts fullAddress =
        ["7001 Searcy Creek Parkway", "Kansas City", "MO", "64119"] := by
  constructor <;> decide

end LDSMap
